import Mathlib

/-!
Verification development for the GitHub MCP gateway
(`src/mcp/servers/github/server.py`).

The server is embedded shallowly: the external world (filesystem existence
checks and subprocess outcomes) is a parameter `Env`, tool-call arguments are
a typed record mirroring the declared input schemas, and every handler is a
pure function from `Env` and arguments to the summary text it renders,
together with the list of invoker calls it makes.
-/

namespace AvaGithubMCP

/-- Outcome of the underlying `subprocess.run` call: either the launch raised
an exception (captured as its message) or the process ran to completion with
an exit code and both captured streams. -/
inductive ExecOutcome where
  | threw (msg : String)
  | completed (returncode : Int) (stdout stderr : String)
deriving Repr, DecidableEq

/-- The external world the server touches: `os.path.exists` and
`subprocess.run`, as a function of command and working directory. -/
structure Env where
  dirExists : String → Bool
  runProc : List String → String → ExecOutcome

/-- The dictionary `_run_git_command` returns: either the failure shape
`{"success": False, "error": ...}` (missing directory or launch exception) or
the completed shape `{"success": rc == 0, "stdout": ..., "stderr": ...,
"returncode": rc}`. -/
inductive GitCmdResult where
  | errRes (error : String)
  | runRes (returncode : Int) (stdout stderr : String)
deriving Repr, DecidableEq

/-- `result["success"]`: `False` in the error shape, `returncode == 0` in the
completed shape. -/
def GitCmdResult.success : GitCmdResult → Bool
  | .errRes _ => false
  | .runRes rc _ _ => rc == 0

/-- `result["stdout"]` (only ever read on the completed shape, where the key
is present; the error shape is totalized with `""`). -/
def GitCmdResult.stdoutText : GitCmdResult → String
  | .errRes _ => ""
  | .runRes _ out _ => out

/-- `result["stderr"]` (only ever read on the completed shape). -/
def GitCmdResult.stderrText : GitCmdResult → String
  | .errRes _ => ""
  | .runRes _ _ err => err

/-- `result.get("error", result.get("stderr", "Unknown error"))`: the error
shape carries the `error` key; the completed shape has no `error` key but
always has `stderr`, so the `"Unknown error"` default is never reached. -/
def GitCmdResult.errorText : GitCmdResult → String
  | .errRes e => e
  | .runRes _ _ err => err

/-- `result["returncode"]` (present on the completed shape; the error shape,
where the key is absent, is totalized with 0). -/
def GitCmdResult.retcode : GitCmdResult → Int
  | .errRes _ => 0
  | .runRes rc _ _ => rc

/-- `GitHubMCPServer._run_git_command`.  Returns the result dictionary paired
with whether `subprocess.run` was actually attempted (it is skipped exactly
when the working directory does not exist). -/
def run_git_command (env : Env) (command : List String) (cwd : String) :
    GitCmdResult × Bool :=
  if env.dirExists cwd = false then
    (.errRes ("Directory does not exist: " ++ cwd), false)
  else
    match env.runProc command cwd with
    | .completed rc out err => (.runRes rc out err, true)
    | .threw msg => (.errRes msg, true)

/-- The `arguments` mapping of a `tools/call` request, typed by the declared
input schemas (`None` encodes an absent key). -/
structure Args where
  repo_path : Option String := none
  action : Option String := none
  branch_name : Option String := none
  message : Option String := none
  add_all : Option Bool := none
  branch : Option String := none
  force : Option Bool := none
  limit : Option Int := none
  files : Option (List String) := none
deriving Repr, DecidableEq

/-- Python truthiness of `args.get(key)` for a string-valued key: falsy when
the key is absent or its value is the empty string. -/
def truthyStr : Option String → Bool
  | none => false
  | some s => !(s == "")

/-- A call of `_run_git_command`: the command tokens and the working
directory. -/
abbrev GitCall := List String × String

/-- `GitHubMCPServer._handle_git_status`. -/
def handle_git_status (env : Env) (args : Args) : String × List GitCall :=
  if truthyStr args.repo_path = false then
    ("Error: repo_path is required", [])
  else
    let repo_path := args.repo_path.getD ""
    let result := (run_git_command env ["git", "status"] repo_path).1
    let calls : List GitCall := [(["git", "status"], repo_path)]
    if result.success then
      ("Git status for " ++ repo_path ++ ":\n" ++ result.stdoutText, calls)
    else
      ("Error: " ++ result.errorText, calls)

/-- The tail of `_handle_git_branch` shared by all four actions:
`output = stdout or "Successfully performed {action} operation"`, the
checkout stderr override, and the shared error-formatting rule. -/
def branchOutcome (action : String) (result : GitCmdResult) : String :=
  if result.success then
    let output :=
      if result.stdoutText = "" then
        "Successfully performed " ++ action ++ " operation"
      else result.stdoutText
    if action = "checkout" ∧ ¬(result.stderrText = "") then
      result.stderrText
    else output
  else
    "Error: " ++ result.errorText

/-- `GitHubMCPServer._handle_git_branch`. -/
def handle_git_branch (env : Env) (args : Args) : String × List GitCall :=
  if truthyStr args.repo_path = false ∨ truthyStr args.action = false then
    ("Error: repo_path and action are required", [])
  else
    let repo_path := args.repo_path.getD ""
    let action := args.action.getD ""
    if action = "list" then
      let r := (run_git_command env ["git", "branch", "-a"] repo_path).1
      (branchOutcome action r, [(["git", "branch", "-a"], repo_path)])
    else if action = "create" then
      if truthyStr args.branch_name = false then
        ("Error: branch_name is required for create action", [])
      else
        let bn := args.branch_name.getD ""
        let r := (run_git_command env ["git", "branch", bn] repo_path).1
        (branchOutcome action r, [(["git", "branch", bn], repo_path)])
    else if action = "delete" then
      if truthyStr args.branch_name = false then
        ("Error: branch_name is required for delete action", [])
      else
        let bn := args.branch_name.getD ""
        let r := (run_git_command env ["git", "branch", "-d", bn] repo_path).1
        (branchOutcome action r, [(["git", "branch", "-d", bn], repo_path)])
    else if action = "checkout" then
      if truthyStr args.branch_name = false then
        ("Error: branch_name is required for checkout action", [])
      else
        let bn := args.branch_name.getD ""
        let r := (run_git_command env ["git", "checkout", bn] repo_path).1
        (branchOutcome action r, [(["git", "checkout", bn], repo_path)])
    else
      ("Error: Unknown action: " ++ action, [])

/-- `GitHubMCPServer._handle_git_commit`. -/
def handle_git_commit (env : Env) (args : Args) : String × List GitCall :=
  if truthyStr args.repo_path = false ∨ truthyStr args.message = false then
    ("Error: repo_path and message are required", [])
  else
    let repo_path := args.repo_path.getD ""
    let message := args.message.getD ""
    let add_all := args.add_all.getD false
    if add_all then
      let add_result := (run_git_command env ["git", "add", "-A"] repo_path).1
      if add_result.success = false then
        ("Error adding files: " ++ add_result.errorText,
         [(["git", "add", "-A"], repo_path)])
      else
        let result := (run_git_command env ["git", "commit", "-m", message] repo_path).1
        let calls : List GitCall :=
          [(["git", "add", "-A"], repo_path),
           (["git", "commit", "-m", message], repo_path)]
        if result.success then
          ("Commit created successfully:\n" ++ result.stdoutText, calls)
        else
          ("Error: " ++ result.errorText, calls)
    else
      let result := (run_git_command env ["git", "commit", "-m", message] repo_path).1
      let calls : List GitCall := [(["git", "commit", "-m", message], repo_path)]
      if result.success then
        ("Commit created successfully:\n" ++ result.stdoutText, calls)
      else
        ("Error: " ++ result.errorText, calls)

/-- `GitHubMCPServer._handle_git_push`. -/
def handle_git_push (env : Env) (args : Args) : String × List GitCall :=
  if truthyStr args.repo_path = false then
    ("Error: repo_path is required", [])
  else
    let repo_path := args.repo_path.getD ""
    let force := args.force.getD false
    let cmd := ["git", "push"]
      ++ (if force then ["--force"] else [])
      ++ (if truthyStr args.branch then ["origin", args.branch.getD ""] else [])
    let result := (run_git_command env cmd repo_path).1
    if result.success then
      let output :=
        if result.stdoutText = "" then
          (if result.stderrText = "" then "Push completed successfully"
           else result.stderrText)
        else result.stdoutText
      (output, [(cmd, repo_path)])
    else
      ("Error: " ++ result.errorText, [(cmd, repo_path)])

/-- `GitHubMCPServer._handle_git_pull`. -/
def handle_git_pull (env : Env) (args : Args) : String × List GitCall :=
  if truthyStr args.repo_path = false then
    ("Error: repo_path is required", [])
  else
    let repo_path := args.repo_path.getD ""
    let cmd := ["git", "pull"]
      ++ (if truthyStr args.branch then ["origin", args.branch.getD ""] else [])
    let result := (run_git_command env cmd repo_path).1
    if result.success then
      ("Pull completed successfully:\n" ++ result.stdoutText, [(cmd, repo_path)])
    else
      ("Error: " ++ result.errorText, [(cmd, repo_path)])

/-- `GitHubMCPServer._handle_git_log`. -/
def handle_git_log (env : Env) (args : Args) : String × List GitCall :=
  if truthyStr args.repo_path = false then
    ("Error: repo_path is required", [])
  else
    let repo_path := args.repo_path.getD ""
    let limit := args.limit.getD 10
    let cmd := ["git", "log", "-" ++ toString limit, "--oneline", "--decorate", "--graph"]
    let result := (run_git_command env cmd repo_path).1
    if result.success then
      ("Git log (last " ++ toString limit ++ " commits):\n" ++ result.stdoutText,
       [(cmd, repo_path)])
    else
      ("Error: " ++ result.errorText, [(cmd, repo_path)])

/-- `GitHubMCPServer._handle_git_add`. -/
def handle_git_add (env : Env) (args : Args) : String × List GitCall :=
  let files := args.files.getD []
  if truthyStr args.repo_path = false ∨ files = ([] : List String) then
    ("Error: repo_path and files are required", [])
  else
    let repo_path := args.repo_path.getD ""
    let cmd := ["git", "add"] ++ files
    let result := (run_git_command env cmd repo_path).1
    if result.success then
      ("Files staged successfully: " ++ String.intercalate ", " files,
       [(cmd, repo_path)])
    else
      ("Error: " ++ result.errorText, [(cmd, repo_path)])

/-- One entry of the static tool catalog of `handle_tools_list`: its `name`,
`description`, the names of its `inputSchema.properties` and its
`inputSchema.required` list. -/
structure ToolDescriptor where
  name : String
  description : String
  properties : List String
  required : List String
deriving Repr, DecidableEq

/-- The `tools` list built by `GitHubMCPServer.handle_tools_list`, in source
order. -/
def tools_list_registry : List ToolDescriptor :=
  [ { name := "git_status",
      description := "Get the current git status of a repository",
      properties := ["repo_path"], required := ["repo_path"] },
    { name := "git_branch",
      description := "List, create, or delete git branches",
      properties := ["repo_path", "action", "branch_name"],
      required := ["repo_path", "action"] },
    { name := "git_commit",
      description := "Create a git commit with the specified message",
      properties := ["repo_path", "message", "add_all"],
      required := ["repo_path", "message"] },
    { name := "git_push",
      description := "Push commits to the remote repository",
      properties := ["repo_path", "branch", "force"],
      required := ["repo_path"] },
    { name := "git_pull",
      description := "Pull changes from the remote repository",
      properties := ["repo_path", "branch"],
      required := ["repo_path"] },
    { name := "git_log",
      description := "Show git commit history",
      properties := ["repo_path", "limit"],
      required := ["repo_path"] },
    { name := "git_add",
      description := "Stage files for commit",
      properties := ["repo_path", "files"],
      required := ["repo_path", "files"] } ]

/-- The `result` payload of a success response: the `initialize` handshake,
the `tools/list` listing, or a `tools/call` content wrapper
`{"content":[{"type":"text","text": t}]}`. -/
inductive Payload where
  | initResult
  | toolsList (tools : List ToolDescriptor)
  | content (text : String)
deriving Repr, DecidableEq

/-- A JSON line written to stdout: `_send_response` or `_send_error`; the
`id` member is omitted (`none`) when `request_id is None`. -/
inductive Response where
  | result (payload : Payload) (id : Option Int)
  | error (code : Int) (message : String) (id : Option Int)
deriving Repr, DecidableEq

/-- The `id` member of an emitted response (`none` = omitted). -/
def Response.rid : Response → Option Int
  | .result _ i => i
  | .error _ _ i => i

/-- Whether the response is a protocol error object rather than a
success-shaped `result`. -/
def Response.isErr : Response → Bool
  | .result _ _ => false
  | .error _ _ _ => true

/-- The `params` mapping of a request, as read by `handle_tools_call`. -/
structure ToolCallParams where
  name : Option String := none
  arguments : Option Args := none

/-- The raw `id` member of an incoming message: absent, JSON `null`, or a
concrete token. -/
inductive ReqId where
  | absent
  | null
  | val (v : Int)
deriving Repr, DecidableEq

/-- `request.get("id")`: a missing key and a JSON `null` value both give
Python `None`. -/
def ReqId.extract : ReqId → Option Int
  | .absent => none
  | .null => none
  | .val v => some v

/-- Python string formatting of an optional string (`f"{x}"` renders `None`
as `"None"`). -/
def pyShow : Option String → String
  | none => "None"
  | some s => s

/-- `GitHubMCPServer.handle_tools_call`: route `params.name` through the
if/elif chain to a handler and wrap its text as a content result, or emit
the `-32601` unknown-tool error. -/
def handle_tools_call (env : Env) (params : ToolCallParams)
    (request_id : Option Int) : List Response :=
  let tool_name := params.name
  let arguments := params.arguments.getD {}
  if tool_name = some "git_status" then
    [.result (.content (handle_git_status env arguments).1) request_id]
  else if tool_name = some "git_branch" then
    [.result (.content (handle_git_branch env arguments).1) request_id]
  else if tool_name = some "git_commit" then
    [.result (.content (handle_git_commit env arguments).1) request_id]
  else if tool_name = some "git_push" then
    [.result (.content (handle_git_push env arguments).1) request_id]
  else if tool_name = some "git_pull" then
    [.result (.content (handle_git_pull env arguments).1) request_id]
  else if tool_name = some "git_log" then
    [.result (.content (handle_git_log env arguments).1) request_id]
  else if tool_name = some "git_add" then
    [.result (.content (handle_git_add env arguments).1) request_id]
  else
    [.error (-32601) ("Unknown tool: " ++ pyShow tool_name) request_id]

/-- A parsed incoming line: `method`, `params` and the raw `id` member. -/
structure Request where
  method : Option String := none
  params : ToolCallParams := {}
  id : ReqId := .absent

/-- One iteration of the `run` loop on a parsed request: method dispatch, with
the responses it prints.  The `initialize`, `tools/list` and `tools/call`
branches respond unconditionally; only the unknown-method branch checks
`request_id is not None`. -/
def dispatch (env : Env) (req : Request) : List Response :=
  let request_id := req.id.extract
  if req.method = some "initialize" then
    [.result .initResult request_id]
  else if req.method = some "initialized" then
    []
  else if req.method = some "tools/list" then
    [.result (.toolsList tools_list_registry) request_id]
  else if req.method = some "tools/call" then
    handle_tools_call env req.params request_id
  else
    if request_id.isSome then
      [.error (-32601) ("Method not found: " ++ pyShow req.method) request_id]
    else
      []

/-! ### Prefix predicate on rendered text, and concrete environments -/

/-- `p` is a prefix of `t`, compared on the underlying character lists. -/
def textBegins (p t : String) : Bool := p.data.isPrefixOf t.data

/-- An environment in which every directory exists and every command exits 0
with output `"out"` on stdout and `"errout"` on stderr. -/
def envOK : Env :=
  { dirExists := fun _ => true,
    runProc := fun _ _ => .completed 0 "out" "errout" }

/-- An environment in which no directory exists. -/
def envNoDir : Env :=
  { dirExists := fun _ => false,
    runProc := fun _ _ => .completed 0 "out" "errout" }

/-- An environment in which every directory exists and every command exits 1
with stderr `"boom"`. -/
def envFail : Env :=
  { dirExists := fun _ => true,
    runProc := fun _ _ => .completed 1 "" "boom" }

/-- An environment in which every directory exists, `git add -A` exits 1 with
stderr `"boom"`, and every other command exits 0. -/
def envAddFails : Env :=
  { dirExists := fun _ => true,
    runProc := fun cmd _ =>
      if cmd = ["git", "add", "-A"] then .completed 1 "" "boom"
      else .completed 0 "" "" }

/-! ### Helper lemmas -/

lemma isPrefixOf_append_of_isPrefixOf (l m r : List Char)
    (h : l.isPrefixOf m = true) : l.isPrefixOf (m ++ r) = true := by
  induction l generalizing m with
  | nil => simp only [List.isPrefixOf]
  | cons a as ih =>
    cases m with
    | nil =>
      simp only [List.isPrefixOf] at h
      exact Bool.noConfusion h
    | cons b bs =>
      simp only [List.cons_append, List.isPrefixOf, Bool.and_eq_true] at h ⊢
      exact ⟨h.1, ih bs h.2⟩

lemma textBegins_append_of (p q e : String) (h : textBegins p q = true) :
    textBegins p (q ++ e) = true := by
  simp only [textBegins, String.data_append]
  exact isPrefixOf_append_of_isPrefixOf _ _ _ h

lemma status_missing_repo (env : Env) (args : Args)
    (h : truthyStr args.repo_path = false) :
    handle_git_status env args = ("Error: repo_path is required", []) := by
  unfold handle_git_status
  rw [if_pos h]

lemma branch_missing_req (env : Env) (args : Args)
    (h : truthyStr args.repo_path = false ∨ truthyStr args.action = false) :
    handle_git_branch env args = ("Error: repo_path and action are required", []) := by
  unfold handle_git_branch
  rw [if_pos h]

lemma commit_missing_req (env : Env) (args : Args)
    (h : truthyStr args.repo_path = false ∨ truthyStr args.message = false) :
    handle_git_commit env args = ("Error: repo_path and message are required", []) := by
  unfold handle_git_commit
  rw [if_pos h]

lemma push_missing_repo (env : Env) (args : Args)
    (h : truthyStr args.repo_path = false) :
    handle_git_push env args = ("Error: repo_path is required", []) := by
  unfold handle_git_push
  rw [if_pos h]

lemma pull_missing_repo (env : Env) (args : Args)
    (h : truthyStr args.repo_path = false) :
    handle_git_pull env args = ("Error: repo_path is required", []) := by
  unfold handle_git_pull
  rw [if_pos h]

lemma log_missing_repo (env : Env) (args : Args)
    (h : truthyStr args.repo_path = false) :
    handle_git_log env args = ("Error: repo_path is required", []) := by
  unfold handle_git_log
  rw [if_pos h]

lemma add_missing_req (env : Env) (args : Args)
    (h : truthyStr args.repo_path = false ∨ args.files.getD [] = ([] : List String)) :
    handle_git_add env args = ("Error: repo_path and files are required", []) := by
  unfold handle_git_add
  rw [if_pos h]

lemma branch_create_missing_name (env : Env) (args : Args)
    (hr : truthyStr args.repo_path = true)
    (ha : args.action = some "create") (hb : truthyStr args.branch_name = false) :
    handle_git_branch env args
      = ("Error: branch_name is required for create action", []) := by
  unfold handle_git_branch
  rw [ha]
  simp [hr, hb, show truthyStr (some "create") = true from rfl]

lemma textBegins_error_detail (e : String) :
    textBegins "Error:" ("Error: " ++ e) = true :=
  textBegins_append_of "Error:" "Error: " e (by decide)

lemma textBegins_error_adding (e : String) :
    textBegins "Error" ("Error adding files: " ++ e) = true :=
  textBegins_append_of "Error" "Error adding files: " e (by decide)

lemma status_run_failure (env : Env) (args : Args)
    (hr : truthyStr args.repo_path = true)
    (hf : (run_git_command env ["git", "status"] (args.repo_path.getD "")).1.success
            = false) :
    (handle_git_status env args).1
      = "Error: "
          ++ (run_git_command env ["git", "status"] (args.repo_path.getD "")).1.errorText := by
  unfold handle_git_status
  simp [hr, hf]

lemma branch_list_run_failure (env : Env) (args : Args)
    (hr : truthyStr args.repo_path = true) (ha : args.action = some "list")
    (hf : (run_git_command env ["git", "branch", "-a"] (args.repo_path.getD "")).1.success
            = false) :
    (handle_git_branch env args).1
      = "Error: "
          ++ (run_git_command env ["git", "branch", "-a"] (args.repo_path.getD "")).1.errorText := by
  unfold handle_git_branch
  rw [ha]
  simp [hr, hf, branchOutcome, show truthyStr (some "list") = true from rfl]

lemma branch_create_run_failure (env : Env) (args : Args)
    (hr : truthyStr args.repo_path = true) (ha : args.action = some "create")
    (hb : truthyStr args.branch_name = true)
    (hf : (run_git_command env ["git", "branch", args.branch_name.getD ""]
            (args.repo_path.getD "")).1.success = false) :
    (handle_git_branch env args).1
      = "Error: "
          ++ (run_git_command env ["git", "branch", args.branch_name.getD ""]
                (args.repo_path.getD "")).1.errorText := by
  unfold handle_git_branch
  rw [ha]
  simp [hr, hb, hf, branchOutcome, show truthyStr (some "create") = true from rfl]

lemma branch_delete_run_failure (env : Env) (args : Args)
    (hr : truthyStr args.repo_path = true) (ha : args.action = some "delete")
    (hb : truthyStr args.branch_name = true)
    (hf : (run_git_command env ["git", "branch", "-d", args.branch_name.getD ""]
            (args.repo_path.getD "")).1.success = false) :
    (handle_git_branch env args).1
      = "Error: "
          ++ (run_git_command env ["git", "branch", "-d", args.branch_name.getD ""]
                (args.repo_path.getD "")).1.errorText := by
  unfold handle_git_branch
  rw [ha]
  simp [hr, hb, hf, branchOutcome, show truthyStr (some "delete") = true from rfl]

lemma branch_checkout_run_failure (env : Env) (args : Args)
    (hr : truthyStr args.repo_path = true) (ha : args.action = some "checkout")
    (hb : truthyStr args.branch_name = true)
    (hf : (run_git_command env ["git", "checkout", args.branch_name.getD ""]
            (args.repo_path.getD "")).1.success = false) :
    (handle_git_branch env args).1
      = "Error: "
          ++ (run_git_command env ["git", "checkout", args.branch_name.getD ""]
                (args.repo_path.getD "")).1.errorText := by
  unfold handle_git_branch
  rw [ha]
  simp [hr, hb, hf, branchOutcome, show truthyStr (some "checkout") = true from rfl]

lemma commit_run_failure_no_add (env : Env) (args : Args)
    (hr : truthyStr args.repo_path = true) (hm : truthyStr args.message = true)
    (hna : args.add_all.getD false = false)
    (hf : (run_git_command env ["git", "commit", "-m", args.message.getD ""]
            (args.repo_path.getD "")).1.success = false) :
    (handle_git_commit env args).1
      = "Error: "
          ++ (run_git_command env ["git", "commit", "-m", args.message.getD ""]
                (args.repo_path.getD "")).1.errorText := by
  unfold handle_git_commit
  simp [hr, hm, hna, hf]

lemma commit_run_failure_after_add (env : Env) (args : Args)
    (hr : truthyStr args.repo_path = true) (hm : truthyStr args.message = true)
    (ha : args.add_all.getD false = true)
    (hadd : (run_git_command env ["git", "add", "-A"] (args.repo_path.getD "")).1.success
              = true)
    (hf : (run_git_command env ["git", "commit", "-m", args.message.getD ""]
            (args.repo_path.getD "")).1.success = false) :
    (handle_git_commit env args).1
      = "Error: "
          ++ (run_git_command env ["git", "commit", "-m", args.message.getD ""]
                (args.repo_path.getD "")).1.errorText := by
  unfold handle_git_commit
  simp [hr, hm, ha, hadd, hf]

lemma commit_add_failure_text (env : Env) (args : Args)
    (hr : truthyStr args.repo_path = true) (hm : truthyStr args.message = true)
    (ha : args.add_all.getD false = true)
    (hadd : (run_git_command env ["git", "add", "-A"] (args.repo_path.getD "")).1.success
              = false) :
    (handle_git_commit env args).1
      = "Error adding files: "
          ++ (run_git_command env ["git", "add", "-A"] (args.repo_path.getD "")).1.errorText := by
  unfold handle_git_commit
  simp [hr, hm, ha, hadd]

lemma push_run_failure (env : Env) (args : Args) (cmd : List String)
    (hr : truthyStr args.repo_path = true)
    (hc : cmd = ["git", "push"]
        ++ (if args.force.getD false then ["--force"] else [])
        ++ (if truthyStr args.branch then ["origin", args.branch.getD ""] else []))
    (hf : (run_git_command env cmd (args.repo_path.getD "")).1.success = false) :
    (handle_git_push env args).1
      = "Error: " ++ (run_git_command env cmd (args.repo_path.getD "")).1.errorText := by
  subst hc
  unfold handle_git_push
  simp only [List.cons_append, List.nil_append] at hf
  simp [hr, hf]

lemma pull_run_failure (env : Env) (args : Args) (cmd : List String)
    (hr : truthyStr args.repo_path = true)
    (hc : cmd = ["git", "pull"]
        ++ (if truthyStr args.branch then ["origin", args.branch.getD ""] else []))
    (hf : (run_git_command env cmd (args.repo_path.getD "")).1.success = false) :
    (handle_git_pull env args).1
      = "Error: " ++ (run_git_command env cmd (args.repo_path.getD "")).1.errorText := by
  subst hc
  unfold handle_git_pull
  simp only [List.cons_append, List.nil_append] at hf
  simp [hr, hf]

lemma log_run_failure (env : Env) (args : Args)
    (hr : truthyStr args.repo_path = true)
    (hf : (run_git_command env
            ["git", "log", "-" ++ toString (args.limit.getD 10),
             "--oneline", "--decorate", "--graph"]
            (args.repo_path.getD "")).1.success = false) :
    (handle_git_log env args).1
      = "Error: "
          ++ (run_git_command env
                ["git", "log", "-" ++ toString (args.limit.getD 10),
                 "--oneline", "--decorate", "--graph"]
                (args.repo_path.getD "")).1.errorText := by
  unfold handle_git_log
  simp [hr, hf]

lemma add_run_failure (env : Env) (args : Args)
    (hr : truthyStr args.repo_path = true)
    (hfl : ¬(args.files.getD [] = ([] : List String)))
    (hf : (run_git_command env (["git", "add"] ++ args.files.getD [])
            (args.repo_path.getD "")).1.success = false) :
    (handle_git_add env args).1
      = "Error: "
          ++ (run_git_command env (["git", "add"] ++ args.files.getD [])
                (args.repo_path.getD "")).1.errorText := by
  unfold handle_git_add
  simp only [List.cons_append, List.nil_append] at hf
  simp [hr, hfl, hf]

/-! ### Claim theorems -/

/-- C5: if the working directory does not exist, the process invoker returns
`success=false` with error message `"Directory does not exist: <path>"` and
never attempts to execute the external command; and this outcome is reachable
from every one of the seven tool handlers. -/
theorem missing_directory_blocks_execution :
    (∀ (env : Env) (command : List String) (cwd : String),
        env.dirExists cwd = false →
        run_git_command env command cwd
          = (.errRes ("Directory does not exist: " ++ cwd), false)) ∧
    handle_git_status envNoDir { repo_path := some "/r" }
      = ("Error: Directory does not exist: /r", [(["git", "status"], "/r")]) ∧
    handle_git_branch envNoDir { repo_path := some "/r", action := some "list" }
      = ("Error: Directory does not exist: /r", [(["git", "branch", "-a"], "/r")]) ∧
    handle_git_commit envNoDir { repo_path := some "/r", message := some "m" }
      = ("Error: Directory does not exist: /r", [(["git", "commit", "-m", "m"], "/r")]) ∧
    handle_git_push envNoDir { repo_path := some "/r" }
      = ("Error: Directory does not exist: /r", [(["git", "push"], "/r")]) ∧
    handle_git_pull envNoDir { repo_path := some "/r" }
      = ("Error: Directory does not exist: /r", [(["git", "pull"], "/r")]) ∧
    handle_git_log envNoDir { repo_path := some "/r" }
      = ("Error: Directory does not exist: /r",
         [(["git", "log", "-10", "--oneline", "--decorate", "--graph"], "/r")]) ∧
    handle_git_add envNoDir { repo_path := some "/r", files := some ["a.txt"] }
      = ("Error: Directory does not exist: /r", [(["git", "add", "a.txt"], "/r")]) := by
  refine ⟨?_, rfl, rfl, rfl, rfl, rfl, rfl, rfl⟩
  intro env command cwd h
  simp [run_git_command, h]

/-- Closed instance of C5's universal part, at a concrete command, directory
and environment. -/
theorem missing_directory_blocks_execution_witness :
    run_git_command envNoDir ["git", "status"] "/r"
      = (.errRes ("Directory does not exist: /r"), false) :=
  missing_directory_blocks_execution.1 envNoDir ["git", "status"] "/r" rfl

/-- C6: when the invoker launches the external command to completion, the
result carries `success = (returncode == 0)`, and stdout, stderr and the
return code are all present in the result. -/
theorem completed_command_success_iff_zero_exit (env : Env)
    (command : List String) (cwd : String) (rc : Int) (out err : String)
    (hd : env.dirExists cwd = true)
    (hr : env.runProc command cwd = .completed rc out err) :
    run_git_command env command cwd = (.runRes rc out err, true) ∧
    (GitCmdResult.runRes rc out err).success = (rc == 0) ∧
    (GitCmdResult.runRes rc out err).stdoutText = out ∧
    (GitCmdResult.runRes rc out err).stderrText = err ∧
    (GitCmdResult.runRes rc out err).retcode = rc := by
  refine ⟨?_, rfl, rfl, rfl, rfl⟩
  simp [run_git_command, hd, hr]

/-- Closed instance of C6 at a nonzero exit code. -/
theorem completed_command_success_iff_zero_exit_witness :
    run_git_command envFail ["git", "status"] "/r"
      = (.runRes 1 "" "boom", true) ∧
    (GitCmdResult.runRes 1 "" ("boom" : String)).success = ((1 : Int) == 0) ∧
    (GitCmdResult.runRes 1 "" ("boom" : String)).stdoutText = "" ∧
    (GitCmdResult.runRes 1 "" ("boom" : String)).stderrText = "boom" ∧
    (GitCmdResult.runRes 1 "" ("boom" : String)).retcode = 1 :=
  completed_command_success_iff_zero_exit envFail ["git", "status"] "/r" 1 "" "boom" rfl rfl

/-- C3: whenever a required argument is absent, the handler makes no invoker
call (so no external process is ever started) and returns a text beginning
with `"Error:"`; in particular `git_branch` with action `"create"` and no
`branch_name` returns exactly
`"Error: branch_name is required for create action"`. -/
theorem missing_required_argument_short_circuits :
    (∀ (env : Env) (args : Args),
      handle_git_status env { args with repo_path := none }
        = ("Error: repo_path is required", []) ∧
      handle_git_branch env { args with repo_path := none }
        = ("Error: repo_path and action are required", []) ∧
      handle_git_branch env { args with action := none }
        = ("Error: repo_path and action are required", []) ∧
      handle_git_commit env { args with repo_path := none }
        = ("Error: repo_path and message are required", []) ∧
      handle_git_commit env { args with message := none }
        = ("Error: repo_path and message are required", []) ∧
      handle_git_push env { args with repo_path := none }
        = ("Error: repo_path is required", []) ∧
      handle_git_pull env { args with repo_path := none }
        = ("Error: repo_path is required", []) ∧
      handle_git_log env { args with repo_path := none }
        = ("Error: repo_path is required", []) ∧
      handle_git_add env { args with repo_path := none }
        = ("Error: repo_path and files are required", []) ∧
      handle_git_add env { args with files := none }
        = ("Error: repo_path and files are required", [])) ∧
    (∀ (env : Env) (args : Args), truthyStr args.repo_path = true →
      handle_git_branch env { args with action := some "create", branch_name := none }
        = ("Error: branch_name is required for create action", [])) ∧
    textBegins "Error:" "Error: repo_path is required" = true ∧
    textBegins "Error:" "Error: repo_path and action are required" = true ∧
    textBegins "Error:" "Error: repo_path and message are required" = true ∧
    textBegins "Error:" "Error: repo_path and files are required" = true ∧
    textBegins "Error:" "Error: branch_name is required for create action" = true := by
  refine ⟨?_, ?_, by decide, by decide, by decide, by decide, by decide⟩
  · intro env args
    exact ⟨status_missing_repo _ _ rfl,
      branch_missing_req _ _ (Or.inl rfl),
      branch_missing_req _ _ (Or.inr rfl),
      commit_missing_req _ _ (Or.inl rfl),
      commit_missing_req _ _ (Or.inr rfl),
      push_missing_repo _ _ rfl,
      pull_missing_repo _ _ rfl,
      log_missing_repo _ _ rfl,
      add_missing_req _ _ (Or.inl rfl),
      add_missing_req _ _ (Or.inr rfl)⟩
  · intro env args h
    exact branch_create_missing_name _ _ h rfl rfl

/-- Closed instance of C3's hypothesis-bearing part: a `git_branch` create
call with a present repository path and no branch name. -/
theorem missing_required_argument_short_circuits_witness :
    handle_git_branch envOK
        { repo_path := some "/r", action := some "create", branch_name := none }
      = ("Error: branch_name is required for create action", []) :=
  missing_required_argument_short_circuits.2.1 envOK { repo_path := some "/r" } rfl

/-- C10: a required argument that is present but falsy (empty string for
`repo_path`, `message`, `action` or `branch_name`; empty list for `files`) is
treated exactly like an absent argument: the handler returns the
corresponding required-argument error text and makes no invoker call. -/
theorem falsy_required_argument_treated_as_absent :
    (∀ (env : Env) (args : Args),
      handle_git_status env { args with repo_path := some "" }
        = ("Error: repo_path is required", []) ∧
      handle_git_status env { args with repo_path := some "" }
        = handle_git_status env { args with repo_path := none } ∧
      handle_git_branch env { args with repo_path := some "" }
        = ("Error: repo_path and action are required", []) ∧
      handle_git_commit env { args with repo_path := some "" }
        = ("Error: repo_path and message are required", []) ∧
      handle_git_push env { args with repo_path := some "" }
        = ("Error: repo_path is required", []) ∧
      handle_git_pull env { args with repo_path := some "" }
        = ("Error: repo_path is required", []) ∧
      handle_git_log env { args with repo_path := some "" }
        = ("Error: repo_path is required", []) ∧
      handle_git_add env { args with repo_path := some "" }
        = ("Error: repo_path and files are required", []) ∧
      handle_git_commit env { args with message := some "" }
        = ("Error: repo_path and message are required", []) ∧
      handle_git_commit env { args with message := some "" }
        = handle_git_commit env { args with message := none } ∧
      handle_git_branch env { args with action := some "" }
        = ("Error: repo_path and action are required", []) ∧
      handle_git_branch env { args with action := some "" }
        = handle_git_branch env { args with action := none } ∧
      handle_git_add env { args with files := some [] }
        = ("Error: repo_path and files are required", []) ∧
      handle_git_add env { args with files := some [] }
        = handle_git_add env { args with files := none }) ∧
    (∀ (env : Env) (args : Args), truthyStr args.repo_path = true →
      handle_git_branch env { args with action := some "create", branch_name := some "" }
        = ("Error: branch_name is required for create action", []) ∧
      handle_git_branch env { args with action := some "create", branch_name := some "" }
        = handle_git_branch env { args with action := some "create", branch_name := none }) := by
  constructor
  · intro env args
    refine ⟨status_missing_repo env { args with repo_path := some "" } rfl, ?_,
      branch_missing_req env { args with repo_path := some "" } (Or.inl rfl),
      commit_missing_req env { args with repo_path := some "" } (Or.inl rfl),
      push_missing_repo env { args with repo_path := some "" } rfl,
      pull_missing_repo env { args with repo_path := some "" } rfl,
      log_missing_repo env { args with repo_path := some "" } rfl,
      add_missing_req env { args with repo_path := some "" } (Or.inl rfl),
      commit_missing_req env { args with message := some "" } (Or.inr rfl), ?_,
      branch_missing_req env { args with action := some "" } (Or.inr rfl), ?_,
      add_missing_req env { args with files := some [] } (Or.inr rfl), ?_⟩
    · exact (status_missing_repo env { args with repo_path := some "" } rfl).trans
        (status_missing_repo env { args with repo_path := none } rfl).symm
    · exact (commit_missing_req env { args with message := some "" } (Or.inr rfl)).trans
        (commit_missing_req env { args with message := none } (Or.inr rfl)).symm
    · exact (branch_missing_req env { args with action := some "" } (Or.inr rfl)).trans
        (branch_missing_req env { args with action := none } (Or.inr rfl)).symm
    · exact (add_missing_req env { args with files := some [] } (Or.inr rfl)).trans
        (add_missing_req env { args with files := none } (Or.inr rfl)).symm
  · intro env args h
    refine ⟨branch_create_missing_name env
      { args with action := some "create", branch_name := some "" } h rfl rfl, ?_⟩
    exact (branch_create_missing_name env
        { args with action := some "create", branch_name := some "" } h rfl rfl).trans
      (branch_create_missing_name env
        { args with action := some "create", branch_name := none } h rfl rfl).symm

/-- Closed instance of C10's hypothesis-bearing part: an empty `branch_name`
on a `git_branch` create call behaves like an absent one. -/
theorem falsy_required_argument_treated_as_absent_witness :
    handle_git_branch envOK
        { repo_path := some "/r", action := some "create", branch_name := some "" }
      = ("Error: branch_name is required for create action", []) :=
  (falsy_required_argument_treated_as_absent.2 envOK { repo_path := some "/r" } rfl).1

/-- C4: on a `git_commit` call with `add_all = true` whose staging step
(`git add -A`) fails, the handler's only invoker call is the staging call —
the commit command is never invoked — and the returned text surfaces the
staging step's error. -/
theorem commit_staging_failure_short_circuits (env : Env) (args : Args)
    (hr : truthyStr args.repo_path = true) (hm : truthyStr args.message = true)
    (ha : args.add_all = some true)
    (hf : (run_git_command env ["git", "add", "-A"] (args.repo_path.getD "")).1.success
            = false) :
    handle_git_commit env args
      = ("Error adding files: "
           ++ (run_git_command env ["git", "add", "-A"] (args.repo_path.getD "")).1.errorText,
         [(["git", "add", "-A"], args.repo_path.getD "")]) ∧
    ∀ (m p : String), (["git", "commit", "-m", m], p) ∉ (handle_git_commit env args).2 := by
  have hmain : handle_git_commit env args
      = ("Error adding files: "
           ++ (run_git_command env ["git", "add", "-A"] (args.repo_path.getD "")).1.errorText,
         [(["git", "add", "-A"], args.repo_path.getD "")]) := by
    unfold handle_git_commit
    simp [hr, hm, ha, hf]
  refine ⟨hmain, ?_⟩
  intro m p
  rw [hmain]
  simp

/-- Closed instance of C4: staging fails with stderr `"boom"`, the text
surfaces it and the trace holds only the staging call. -/
theorem commit_staging_failure_short_circuits_witness :
    handle_git_commit envAddFails
        { repo_path := some "/r", message := some "m", add_all := some true }
      = ("Error adding files: boom", [(["git", "add", "-A"], "/r")]) :=
  (commit_staging_failure_short_circuits envAddFails
    { repo_path := some "/r", message := some "m", add_all := some true }
    rfl rfl rfl (by decide)).1

/-- C7: a `tools/call` whose `params.name` is present but not one of the
seven registered tool names produces exactly one protocol error with code
`-32601` and message `"Unknown tool: <name>"`, and never a success-shaped
result. -/
theorem unknown_tool_yields_protocol_error (env : Env) (params : ToolCallParams)
    (request_id : Option Int) (n : String)
    (hn : params.name = some n)
    (h : n ∉ ["git_status", "git_branch", "git_commit", "git_push",
              "git_pull", "git_log", "git_add"]) :
    handle_tools_call env params request_id
      = [.error (-32601) ("Unknown tool: " ++ n) request_id] ∧
    ∀ r ∈ handle_tools_call env params request_id, r.isErr = true := by
  simp only [List.mem_cons, List.not_mem_nil, or_false, not_or] at h
  obtain ⟨h1, h2, h3, h4, h5, h6, h7⟩ := h
  have hmain : handle_tools_call env params request_id
      = [.error (-32601) ("Unknown tool: " ++ n) request_id] := by
    unfold handle_tools_call
    rw [hn]
    simp [h1, h2, h3, h4, h5, h6, h7, pyShow]
  refine ⟨hmain, ?_⟩
  rw [hmain]
  intro r hr
  simp only [List.mem_singleton] at hr
  subst hr
  rfl

/-- Closed instance of C7 at the unregistered name `"nope"`. -/
theorem unknown_tool_yields_protocol_error_witness :
    handle_tools_call envOK { name := some "nope" } (some 2)
      = [.error (-32601) ("Unknown tool: nope") (some 2)] :=
  (unknown_tool_yields_protocol_error envOK { name := some "nope" } (some 2)
    "nope" rfl (by decide)).1

lemma handle_tools_call_singleton (env : Env) (params : ToolCallParams)
    (rid : Option Int) :
    (handle_tools_call env params rid).length = 1 ∧
    ∀ r ∈ handle_tools_call env params rid, r.rid = rid := by
  simp only [handle_tools_call]
  split_ifs <;>
    exact ⟨rfl, by
      intro r hr
      simp only [List.mem_singleton] at hr
      subst hr
      rfl⟩

lemma dispatch_tools_call (env : Env) (params : ToolCallParams) (i : ReqId) :
    dispatch env { method := some "tools/call", params := params, id := i }
      = handle_tools_call env params i.extract := by
  unfold dispatch
  simp

/-- C8: the listing returned for `tools/list` is the registry verbatim —
exactly 7 descriptors with pairwise-distinct names in the fixed order
status, branch, commit, push, pull, log, add — and each descriptor's
`required` list names exactly the arguments whose absence the handler
rejects unconditionally: each listed argument's absence short-circuits to a
required-argument error with no invoker call (for any other arguments and
environment), while every unlisted argument admits a call that proceeds to
an invocation despite its absence. -/
theorem tools_list_seven_descriptors :
    tools_list_registry.length = 7 ∧
    tools_list_registry.map (fun t => t.name)
      = ["git_status", "git_branch", "git_commit", "git_push",
         "git_pull", "git_log", "git_add"] ∧
    (tools_list_registry.map (fun t => t.name)).Nodup ∧
    tools_list_registry.map (fun t => t.required)
      = [["repo_path"], ["repo_path", "action"], ["repo_path", "message"],
         ["repo_path"], ["repo_path"], ["repo_path"], ["repo_path", "files"]] ∧
    (∀ (env : Env) (params : ToolCallParams) (i : Int),
      dispatch env { method := some "tools/list", params := params, id := .val i }
        = [.result (.toolsList tools_list_registry) (some i)]) ∧
    (∀ (env : Env) (args : Args),
      handle_git_status env { args with repo_path := none }
        = ("Error: repo_path is required", []) ∧
      handle_git_branch env { args with repo_path := none }
        = ("Error: repo_path and action are required", []) ∧
      handle_git_branch env { args with action := none }
        = ("Error: repo_path and action are required", []) ∧
      handle_git_commit env { args with repo_path := none }
        = ("Error: repo_path and message are required", []) ∧
      handle_git_commit env { args with message := none }
        = ("Error: repo_path and message are required", []) ∧
      handle_git_push env { args with repo_path := none }
        = ("Error: repo_path is required", []) ∧
      handle_git_pull env { args with repo_path := none }
        = ("Error: repo_path is required", []) ∧
      handle_git_log env { args with repo_path := none }
        = ("Error: repo_path is required", []) ∧
      handle_git_add env { args with repo_path := none }
        = ("Error: repo_path and files are required", []) ∧
      handle_git_add env { args with files := none }
        = ("Error: repo_path and files are required", [])) ∧
    (handle_git_branch envOK { repo_path := some "/r", action := some "list" }).2 ≠ [] ∧
    (handle_git_commit envOK { repo_path := some "/r", message := some "m" }).2 ≠ [] ∧
    (handle_git_push envOK { repo_path := some "/r" }).2 ≠ [] ∧
    (handle_git_pull envOK { repo_path := some "/r" }).2 ≠ [] ∧
    (handle_git_log envOK { repo_path := some "/r" }).2 ≠ [] := by
  refine ⟨rfl, rfl, by decide, rfl, ?_, ?_, by decide, by decide, by decide,
    by decide, by decide⟩
  · intro env params i
    unfold dispatch
    simp [ReqId.extract]
  · intro env args
    exact ⟨status_missing_repo _ _ rfl,
      branch_missing_req _ _ (Or.inl rfl),
      branch_missing_req _ _ (Or.inr rfl),
      commit_missing_req _ _ (Or.inl rfl),
      commit_missing_req _ _ (Or.inr rfl),
      push_missing_repo _ _ rfl,
      pull_missing_repo _ _ rfl,
      log_missing_repo _ _ rfl,
      add_missing_req _ _ (Or.inl rfl),
      add_missing_req _ _ (Or.inr rfl)⟩

/-- C9: a request whose `id` member is present but JSON `null` is treated
exactly like one with no `id` member at all: the dispatcher's output is
identical, every emitted response omits the `id` member, and an unrecognized
method produces no response. -/
theorem null_id_treated_as_absent (env : Env) (m : Option String)
    (params : ToolCallParams) :
    dispatch env { method := m, params := params, id := .null }
      = dispatch env { method := m, params := params, id := .absent } ∧
    (∀ r ∈ dispatch env { method := m, params := params, id := .null },
      r.rid = none) ∧
    (m ∉ [some "initialize", some "initialized", some "tools/list", some "tools/call"] →
      dispatch env { method := m, params := params, id := .null } = []) := by
  refine ⟨rfl, ?_, ?_⟩
  · unfold dispatch
    simp only [ReqId.extract]
    split_ifs
    · intro r hr
      simp only [List.mem_singleton] at hr
      subst hr
      rfl
    · intro r hr
      simp at hr
    · intro r hr
      simp only [List.mem_singleton] at hr
      subst hr
      rfl
    · exact (handle_tools_call_singleton env params none).2
    · intro r hr
      simp only [List.mem_singleton] at hr
      subst hr
      rfl
    · intro r hr
      simp at hr
  · intro hm
    simp only [List.mem_cons, List.not_mem_nil, or_false, not_or] at hm
    obtain ⟨h1, h2, h3, h4⟩ := hm
    unfold dispatch
    simp [h1, h2, h3, h4, ReqId.extract]

/-- Closed instance of C9's hypothesis-bearing part: an unrecognized method
with a `null` id gets no response. -/
theorem null_id_treated_as_absent_witness :
    dispatch envOK { method := some "shutdown", params := {}, id := .null } = [] :=
  (null_id_treated_as_absent envOK (some "shutdown") {}).2.2 (by decide)

/-- C1 is false on the code: a no-id `initialize` message — a notification —
still receives a response (with the `id` member omitted), because only the
unknown-method branch of the run loop checks `request_id is not None`. -/
theorem no_id_message_recognized_method_still_responds :
    dispatch envOK { method := some "initialize", params := {}, id := .absent }
      = [.result .initResult none] ∧
    dispatch envOK { method := some "initialize", params := {}, id := .absent }
      ≠ [] := by
  refine ⟨rfl, ?_⟩
  decide

/-- C1 amended: a message with no `id` gets zero responses when its method is
`initialized` or unrecognized; but a no-id `initialize`, `tools/list` or
`tools/call` message still receives exactly one response, whose `id` member
is omitted. -/
theorem no_id_message_response_behavior (env : Env) (params : ToolCallParams)
    (m : Option String) :
    dispatch env { method := some "initialized", params := params, id := .absent } = [] ∧
    (m ∉ [some "initialize", some "initialized", some "tools/list", some "tools/call"] →
      dispatch env { method := m, params := params, id := .absent } = []) ∧
    dispatch env { method := some "initialize", params := params, id := .absent }
      = [.result .initResult none] ∧
    dispatch env { method := some "tools/list", params := params, id := .absent }
      = [.result (.toolsList tools_list_registry) none] ∧
    (dispatch env { method := some "tools/call", params := params, id := .absent }).length
      = 1 ∧
    (∀ r ∈ dispatch env { method := some "tools/call", params := params, id := .absent },
      r.rid = none) := by
  refine ⟨?_, ?_, ?_, ?_, ?_, ?_⟩
  · unfold dispatch
    simp
  · intro hm
    simp only [List.mem_cons, List.not_mem_nil, or_false, not_or] at hm
    obtain ⟨h1, h2, h3, h4⟩ := hm
    unfold dispatch
    simp [h1, h2, h3, h4, ReqId.extract]
  · unfold dispatch
    simp [ReqId.extract]
  · unfold dispatch
    simp [ReqId.extract]
  · rw [dispatch_tools_call]
    exact (handle_tools_call_singleton env params ReqId.absent.extract).1
  · rw [dispatch_tools_call]
    exact (handle_tools_call_singleton env params ReqId.absent.extract).2

/-- Closed instance of C1's amended hypothesis-bearing part: a no-id message
with an unrecognized method gets no response. -/
theorem no_id_message_response_behavior_witness :
    dispatch envOK { method := some "exit_method", params := {}, id := .absent } = [] :=
  (no_id_message_response_behavior envOK {} (some "exit_method")).2.1 (by decide)

/-- C2 is false as stated: the `git_commit` staging-step failure is an
operation-level fault (nonzero exit of `git add -A`), yet its text begins
`"Error adding files:"`, which does not begin with the prefix `"Error:"`. -/
theorem commit_staging_fault_text_lacks_error_colon :
    (handle_git_commit envAddFails
        { repo_path := some "/r", message := some "m", add_all := some true }).1
      = "Error adding files: boom" ∧
    textBegins "Error:"
      (handle_git_commit envAddFails
        { repo_path := some "/r", message := some "m", add_all := some true }).1
      = false := by
  refine ⟨rfl, ?_⟩
  decide

/-- C2 amended: every operation-level fault — missing required argument,
absent target directory, launch failure, or nonzero exit — is reported as a
success-shaped text result, never a protocol-level error object; the text
begins with `"Error:"` in every case except the `git_commit` staging-step
failure, whose text begins `"Error adding files:"` (still the prefix
`"Error"`). -/
theorem tool_faults_render_error_text :
    (∀ (env : Env) (args : Args),
      textBegins "Error:" (handle_git_status env { args with repo_path := none }).1 = true ∧
      textBegins "Error:" (handle_git_branch env { args with action := none }).1 = true ∧
      textBegins "Error:" (handle_git_commit env { args with message := none }).1 = true ∧
      textBegins "Error:" (handle_git_push env { args with repo_path := none }).1 = true ∧
      textBegins "Error:" (handle_git_pull env { args with repo_path := none }).1 = true ∧
      textBegins "Error:" (handle_git_log env { args with repo_path := none }).1 = true ∧
      textBegins "Error:" (handle_git_add env { args with files := none }).1 = true) ∧
    (∀ (env : Env) (args : Args), truthyStr args.repo_path = true →
      ((run_git_command env ["git", "status"] (args.repo_path.getD "")).1.success = false →
        (handle_git_status env args).1
          = "Error: "
              ++ (run_git_command env ["git", "status"] (args.repo_path.getD "")).1.errorText ∧
        textBegins "Error:" (handle_git_status env args).1 = true) ∧
      (args.action = some "list" →
        (run_git_command env ["git", "branch", "-a"] (args.repo_path.getD "")).1.success
            = false →
        textBegins "Error:" (handle_git_branch env args).1 = true) ∧
      (args.action = some "create" → truthyStr args.branch_name = true →
        (run_git_command env ["git", "branch", args.branch_name.getD ""]
            (args.repo_path.getD "")).1.success = false →
        textBegins "Error:" (handle_git_branch env args).1 = true) ∧
      (args.action = some "delete" → truthyStr args.branch_name = true →
        (run_git_command env ["git", "branch", "-d", args.branch_name.getD ""]
            (args.repo_path.getD "")).1.success = false →
        textBegins "Error:" (handle_git_branch env args).1 = true) ∧
      (args.action = some "checkout" → truthyStr args.branch_name = true →
        (run_git_command env ["git", "checkout", args.branch_name.getD ""]
            (args.repo_path.getD "")).1.success = false →
        textBegins "Error:" (handle_git_branch env args).1 = true) ∧
      (truthyStr args.message = true → args.add_all.getD false = false →
        (run_git_command env ["git", "commit", "-m", args.message.getD ""]
            (args.repo_path.getD "")).1.success = false →
        textBegins "Error:" (handle_git_commit env args).1 = true) ∧
      (truthyStr args.message = true → args.add_all.getD false = true →
        (run_git_command env ["git", "add", "-A"] (args.repo_path.getD "")).1.success
            = true →
        (run_git_command env ["git", "commit", "-m", args.message.getD ""]
            (args.repo_path.getD "")).1.success = false →
        textBegins "Error:" (handle_git_commit env args).1 = true) ∧
      (∀ cmd, cmd = ["git", "push"]
            ++ (if args.force.getD false then ["--force"] else [])
            ++ (if truthyStr args.branch then ["origin", args.branch.getD ""] else []) →
        (run_git_command env cmd (args.repo_path.getD "")).1.success = false →
        textBegins "Error:" (handle_git_push env args).1 = true) ∧
      (∀ cmd, cmd = ["git", "pull"]
            ++ (if truthyStr args.branch then ["origin", args.branch.getD ""] else []) →
        (run_git_command env cmd (args.repo_path.getD "")).1.success = false →
        textBegins "Error:" (handle_git_pull env args).1 = true) ∧
      ((run_git_command env
            ["git", "log", "-" ++ toString (args.limit.getD 10),
             "--oneline", "--decorate", "--graph"]
            (args.repo_path.getD "")).1.success = false →
        textBegins "Error:" (handle_git_log env args).1 = true) ∧
      (¬(args.files.getD [] = ([] : List String)) →
        (run_git_command env (["git", "add"] ++ args.files.getD [])
            (args.repo_path.getD "")).1.success = false →
        textBegins "Error:" (handle_git_add env args).1 = true)) ∧
    (∀ (env : Env) (args : Args), truthyStr args.repo_path = true →
      truthyStr args.message = true → args.add_all.getD false = true →
      (run_git_command env ["git", "add", "-A"] (args.repo_path.getD "")).1.success
          = false →
      (handle_git_commit env args).1
        = "Error adding files: "
            ++ (run_git_command env ["git", "add", "-A"] (args.repo_path.getD "")).1.errorText ∧
      textBegins "Error" (handle_git_commit env args).1 = true) ∧
    (∀ (env : Env) (a : Option Args) (rid : Option Int),
      handle_tools_call env { name := some "git_status", arguments := a } rid
        = [.result (.content (handle_git_status env (a.getD {})).1) rid] ∧
      handle_tools_call env { name := some "git_branch", arguments := a } rid
        = [.result (.content (handle_git_branch env (a.getD {})).1) rid] ∧
      handle_tools_call env { name := some "git_commit", arguments := a } rid
        = [.result (.content (handle_git_commit env (a.getD {})).1) rid] ∧
      handle_tools_call env { name := some "git_push", arguments := a } rid
        = [.result (.content (handle_git_push env (a.getD {})).1) rid] ∧
      handle_tools_call env { name := some "git_pull", arguments := a } rid
        = [.result (.content (handle_git_pull env (a.getD {})).1) rid] ∧
      handle_tools_call env { name := some "git_log", arguments := a } rid
        = [.result (.content (handle_git_log env (a.getD {})).1) rid] ∧
      handle_tools_call env { name := some "git_add", arguments := a } rid
        = [.result (.content (handle_git_add env (a.getD {})).1) rid]) := by
  refine ⟨?_, ?_, ?_, ?_⟩
  · intro env args
    refine ⟨?_, ?_, ?_, ?_, ?_, ?_, ?_⟩
    · rw [status_missing_repo env { args with repo_path := none } rfl]
      decide
    · rw [branch_missing_req env { args with action := none } (Or.inr rfl)]
      decide
    · rw [commit_missing_req env { args with message := none } (Or.inr rfl)]
      decide
    · rw [push_missing_repo env { args with repo_path := none } rfl]
      decide
    · rw [pull_missing_repo env { args with repo_path := none } rfl]
      decide
    · rw [log_missing_repo env { args with repo_path := none } rfl]
      decide
    · rw [add_missing_req env { args with files := none } (Or.inr rfl)]
      decide
  · intro env args hr
    refine ⟨?_, ?_, ?_, ?_, ?_, ?_, ?_, ?_, ?_, ?_, ?_⟩
    · intro hf
      exact ⟨status_run_failure env args hr hf, by
        rw [status_run_failure env args hr hf]; exact textBegins_error_detail _⟩
    · intro ha hf
      rw [branch_list_run_failure env args hr ha hf]
      exact textBegins_error_detail _
    · intro ha hb hf
      rw [branch_create_run_failure env args hr ha hb hf]
      exact textBegins_error_detail _
    · intro ha hb hf
      rw [branch_delete_run_failure env args hr ha hb hf]
      exact textBegins_error_detail _
    · intro ha hb hf
      rw [branch_checkout_run_failure env args hr ha hb hf]
      exact textBegins_error_detail _
    · intro hm hna hf
      rw [commit_run_failure_no_add env args hr hm hna hf]
      exact textBegins_error_detail _
    · intro hm ha hadd hf
      rw [commit_run_failure_after_add env args hr hm ha hadd hf]
      exact textBegins_error_detail _
    · intro cmd hc hf
      rw [push_run_failure env args cmd hr hc hf]
      exact textBegins_error_detail _
    · intro cmd hc hf
      rw [pull_run_failure env args cmd hr hc hf]
      exact textBegins_error_detail _
    · intro hf
      rw [log_run_failure env args hr hf]
      exact textBegins_error_detail _
    · intro hfl hf
      rw [add_run_failure env args hr hfl hf]
      exact textBegins_error_detail _
  · intro env args hr hm ha hadd
    refine ⟨commit_add_failure_text env args hr hm ha hadd, ?_⟩
    rw [commit_add_failure_text env args hr hm ha hadd]
    exact textBegins_error_adding _
  · intro env a rid
    exact ⟨rfl, rfl, rfl, rfl, rfl, rfl, rfl⟩

/-- Closed instance of C2's amended hypothesis-bearing parts: a `git_status`
call whose command exits 1 with stderr `"boom"` renders `"Error: boom"`. -/
theorem tool_faults_render_error_text_witness :
    (handle_git_status envFail { repo_path := some "/r" }).1 = "Error: boom" ∧
    textBegins "Error:" (handle_git_status envFail { repo_path := some "/r" }).1 = true := by
  have h := (tool_faults_render_error_text.2.1 envFail
    { repo_path := some "/r" } rfl).1 (by decide)
  exact ⟨h.1.trans (by decide), h.2⟩

end AvaGithubMCP
